import Mathlib

/-!
Shallow embedding of `src/Rawr.py` (Reddit API Wrapper wRapper), a thin
convenience layer over the praw library.  External praw objects are modelled
as plain Lean structures carrying the fields the source reads; the listing
methods of the external collaborator are modelled as function-valued fields
(what the collaborator would return for given parameters), and each call
`get_posts` makes to such a method is recorded in an explicit trace so that
"no remote call occurred" is expressible.  Python `ValueError` is modelled as
`Except String`, carrying the message the source formats (apostrophes elided
from the messages).  `datetime.utcfromtimestamp` is injective on timestamps,
so a `created` field is modelled by the UTC timestamp itself (a `Nat`).
-/

/-- A praw Redditor, as read by the source: only `.name` is accessed. -/
structure Redditor where
  name : String
deriving Repr, DecidableEq

/-- The award dict read by `Award._make`: keys `name`, `count`, `coin_price`,
`coin_reward`, `description`. -/
structure SourceAward where
  name : String
  count : Nat
  coin_price : Nat
  coin_reward : Nat
  description : String
deriving Repr, DecidableEq

/-- The `Award` dataclass of `src/Rawr.py`. -/
structure Award where
  name : String
  count : Nat
  coin_price : Nat
  coin_reward : Nat
  description : String
deriving Repr, DecidableEq

/-- `Award._make` (src/Rawr.py lines 30-38). -/
def Award._make (award : SourceAward) : Award :=
  { name := award.name
    count := award.count
    coin_price := award.coin_price
    coin_reward := award.coin_reward
    description := award.description }

/-- A praw Comment, with exactly the attributes `Comment._make` reads.
`author` is `none` for a deleted account (Python `None`). -/
structure SourceComment where
  body : String
  author : Option Redditor
  score : Int
  ups : Int
  downs : Int
  created_utc : Nat
  all_awardings : List SourceAward
  depth : Nat
  is_submitter : Bool
  permalink : String
deriving Repr, DecidableEq

/-- The `Comment` dataclass of `src/Rawr.py`. -/
structure Comment where
  text : String
  author_name : Option String
  score : Int
  up_votes : Int
  down_votes : Int
  created : Nat
  awards : List Award
  depth : Nat
  by_op : Bool
  url : String
deriving Repr, DecidableEq

/-- `Comment._make` (src/Rawr.py lines 53-66).  `author_name` follows
`None if comment.author is None else comment.author.name`. -/
def Comment._make (comment : SourceComment) : Comment :=
  { text := comment.body
    author_name := match comment.author with
      | none => none
      | some a => some a.name
    score := comment.score
    up_votes := comment.ups
    down_votes := comment.downs
    created := comment.created_utc
    awards := comment.all_awardings.map Award._make
    depth := comment.depth
    by_op := comment.is_submitter
    url := comment.permalink }

/-- One element of the flat comment listing the source iterates
(`self._client.comments.list()`): either a praw Comment, or a MoreComments
continuation placeholder whose `comments()` method returns the list held in
the constructor (resolving it is the remote fetch). -/
inductive CommentNode where
  | comment (c : SourceComment) : CommentNode
  | more (resolved : List CommentNode) : CommentNode

/-- A praw Submission handle, with the attributes the source reads and
writes.  `comment_limit` and `comment_sort` are the praw-side configuration
slots `get_comments` assigns; `comments_fetch limit sort` is the flat listing
`self._client.comments.list()` returns when the handle is configured with
that limit and sort. -/
structure SourceSubmission where
  title : String
  selftext : String
  author : Option Redditor
  num_comments : Nat
  score : Int
  ups : Int
  downs : Int
  link_flair_text : Option String
  created_utc : Nat
  all_awardings : List SourceAward
  permalink : String
  comment_limit : Nat
  comment_sort : String
  comments_fetch : Nat → String → List CommentNode

/-- Python `"".join(s)` on a string `s`: the concatenation of the singleton
strings of its characters (used by `Submission._make` on `selftext`). -/
def emptyJoin (s : String) : String :=
  String.join (s.data.map (fun c => String.singleton c))

/-- The `Submission` dataclass of `src/Rawr.py`.  `_client` is the live praw
handle kept for follow-up calls. -/
structure Submission where
  _client : SourceSubmission
  summary : String
  text : String
  author_name : Option String
  comment_count : Nat
  score : Int
  up_votes : Int
  down_votes : Int
  flair : Option String
  created : Nat
  awards : List Award
  url : String

/-- `Submission._make` (src/Rawr.py lines 119-134). -/
def Submission._make (submission : SourceSubmission) : Submission :=
  { _client := submission
    summary := submission.title
    text := emptyJoin submission.selftext
    author_name := match submission.author with
      | none => none
      | some a => some a.name
    comment_count := submission.num_comments
    score := submission.score
    up_votes := submission.ups
    down_votes := submission.downs
    flair := submission.link_flair_text
    created := submission.created_utc
    awards := submission.all_awardings.map Award._make
    url := submission.permalink }

/-- The inner loop of `get_comments` over a resolved continuation
(`for comment in obj.comments(): yield process_comment(comment)`):
every element is passed to `Comment._make` with no isinstance dispatch.
Applying the factory to a MoreComments placeholder raises an
AttributeError (it has no `body`): the Boolean result is `true` when the
generator terminates by raising, and the list holds the comments yielded
before that point. -/
def resolveEmit : List CommentNode → List Comment × Bool
  | [] => ([], false)
  | CommentNode.comment c :: rest =>
    let r := resolveEmit rest
    (Comment._make c :: r.1, r.2)
  | CommentNode.more _ :: _ => ([], true)

/-- The main loop of `get_comments` (src/Rawr.py lines 111-117): for each
listing element, a praw Comment is mapped and yielded; any other element is
a MoreComments whose `comments()` result is fed through `resolveEmit`.
Result as in `resolveEmit`: yielded comments, plus whether the generator
terminated by raising. -/
def commentLoop : List CommentNode → List Comment × Bool
  | [] => ([], false)
  | CommentNode.comment c :: rest =>
    let r := commentLoop rest
    (Comment._make c :: r.1, r.2)
  | CommentNode.more rs :: rest =>
    let inner := resolveEmit rs
    if inner.2 then (inner.1, true)
    else
      let r := commentLoop rest
      (inner.1 ++ r.1, r.2)

/-- The body of `Submission.get_comments` (src/Rawr.py lines 83-117), run
when the generator is iterated: assigns `comment_limit` and `comment_sort`
on the praw handle, fetches the comment listing, and flattens it.  Returns
the handle after its two field writes together with the flattening result.
Python defaults: `limit = 50`, `order_by = "confidence"`. -/
def Submission.get_comments (self : Submission) (limit : Nat)
    (order_by : String) :
    SourceSubmission × (List Comment × Bool) :=
  let client := { self._client with comment_limit := limit }
  let client := { client with comment_sort := order_by }
  let comment_obj := client.comments_fetch client.comment_limit client.comment_sort
  (client, commentLoop comment_obj)

/-- The kwargs dict `get_posts` builds: a key is present exactly when the
corresponding field is `some`. -/
structure Kwargs where
  limit : Option Nat := none
  time_filter : Option String := none
deriving Repr, DecidableEq

/-- src/Rawr.py lines 181-185: `kwargs = dict()`, then `kwargs["limit"]` is
set when `limit is not None` and `kwargs["time_filter"]` when
`time_filter is not None`. -/
def buildKwargs (limit : Option Nat) (time_filter : Option String) : Kwargs :=
  let kwargs : Kwargs := {}
  let kwargs := match limit with
    | none => kwargs
    | some l => { kwargs with limit := some l }
  let kwargs := match time_filter with
    | none => kwargs
    | some t => { kwargs with time_filter := some t }
  kwargs

/-- A praw Subreddit handle: each listing method is modelled by the sequence
of posts the collaborator would yield for the given kwargs. -/
structure SubredditHandle where
  hot : Kwargs → List SourceSubmission
  top : Kwargs → List SourceSubmission
  controversial : Kwargs → List SourceSubmission
  new : Kwargs → List SourceSubmission

/-- A record of one invocation of a collaborator listing method, with the
kwargs it was passed. -/
inductive ListingCall where
  | hot (kwargs : Kwargs) : ListingCall
  | top (kwargs : Kwargs) : ListingCall
  | controversial (kwargs : Kwargs) : ListingCall
  | new (kwargs : Kwargs) : ListingCall
deriving Repr, DecidableEq

/-- The `Subreddit` dataclass of `src/Rawr.py`. -/
structure Subreddit where
  _client : SubredditHandle
  display_name : String
  title : String
  description : String
  subscriber_count : Nat
  created : Nat
  url : String

/-- The body of `Subreddit.get_posts` (src/Rawr.py lines 147-199), run when
the generator is iterated.  Python `ValueError` is `Except.error` with the
message the source formats; the first component lists the collaborator
listing-method calls the body makes (empty when it raises before
dispatching, a single call otherwise).  Python defaults: `limit = 50`,
`time_filter = None`, `order_by = "hot"`. -/
def Subreddit.get_posts (self : Subreddit) (limit : Option Nat)
    (time_filter : Option String) (order_by : String) :
    List ListingCall × Except String (List Submission) :=
  if h : order_by = "hot" ∧ time_filter.isSome then
    ([], Except.error
      (s!"If order_by is \"hot\", time filter must be None. Received {time_filter.get h.2}."))
  else
    let kwargs := buildKwargs limit time_filter
    if order_by = "hot" then
      ([ListingCall.hot kwargs],
        Except.ok ((self._client.hot kwargs).map Submission._make))
    else if order_by = "top" then
      ([ListingCall.top kwargs],
        Except.ok ((self._client.top kwargs).map Submission._make))
    else if order_by = "controversial" then
      ([ListingCall.controversial kwargs],
        Except.ok ((self._client.controversial kwargs).map Submission._make))
    else if order_by = "new" then
      ([ListingCall.new kwargs],
        Except.ok ((self._client.new kwargs).map Submission._make))
    else
      ([], Except.error
        (s!"Expected one of [\"hot\", \"top\", \"controversial\", \"new\"] for order_by, received {order_by}"))

/-- The generator object `Subreddit.get_posts(...)` returns at call time: a
Python generator call runs none of the body, it only captures the
arguments. -/
structure PostsGenerator where
  self : Subreddit
  limit : Option Nat
  time_filter : Option String
  order_by : String

/-- Calling the generator function `get_posts`: returns the generator object
together with the (always empty) list of collaborator calls made at call
time.  No part of the body — validation included — runs here. -/
def Subreddit.get_posts_call (self : Subreddit) (limit : Option Nat)
    (time_filter : Option String) (order_by : String) :
    List ListingCall × PostsGenerator :=
  ([], { self := self, limit := limit, time_filter := time_filter, order_by := order_by })

/-- Requesting the first element of the generator runs the body. -/
def PostsGenerator.run (g : PostsGenerator) :
    List ListingCall × Except String (List Submission) :=
  g.self.get_posts g.limit g.time_filter g.order_by

/-- The generator object `Submission.get_comments(...)` returns at call
time. -/
structure CommentsGenerator where
  self : Submission
  limit : Nat
  order_by : String

/-- Calling the generator function `get_comments`: captures the arguments,
runs none of the body (in particular the handle writes to `comment_limit`
and `comment_sort` do not happen here). -/
def Submission.get_comments_call (self : Submission) (limit : Nat)
    (order_by : String) : CommentsGenerator :=
  { self := self, limit := limit, order_by := order_by }

/-- Requesting the first element of the generator runs the body. -/
def CommentsGenerator.run (g : CommentsGenerator) :
    SourceSubmission × (List Comment × Bool) :=
  g.self.get_comments g.limit g.order_by

/-- The process environment as read by `Rawr.__init__`: the values of the
three variables CLIENT_ID, SECRET and USER_AGENT (`none` when unset). -/
structure Env where
  CLIENT_ID : Option String := none
  SECRET : Option String := none
  USER_AGENT : Option String := none
deriving Repr, DecidableEq

/-- The praw.Reddit client as constructed by `Rawr.__init__`: the keyword
arguments passed to `praw.Reddit(...)`. -/
structure Reddit where
  client_id : String
  client_secret : String
  user_agent : String
deriving Repr, DecidableEq

/-- The `Rawr` facade object. -/
structure Rawr where
  client : Reddit
deriving Repr, DecidableEq

/-- `x = os.getenv(VAR) if x is None else x` (src/Rawr.py lines 220-222). -/
def envFallback (arg : Option String) (envVal : Option String) : Option String :=
  match arg with
  | none => envVal
  | some c => some c

/-- `Rawr.__init__` (src/Rawr.py lines 205-230): resolves each credential
from the explicit argument with environment fallback, then checks the three
in order, raising a ValueError naming the first unresolved one. -/
def Rawr.init (env : Env) (client_id : Option String)
    (secret : Option String) (user_agent : Option String) :
    Except String Rawr :=
  let client_id := envFallback client_id env.CLIENT_ID
  let secret := envFallback secret env.SECRET
  let user_agent := envFallback user_agent env.USER_AGENT
  match client_id with
  | none => Except.error
      "Missing client_id! Make sure to pass it or define CLIENT_ID in your environment!"
  | some cid =>
    match secret with
    | none => Except.error
        "Missing secret! Make sure to pass it or define SECRET in your environment!"
    | some s =>
      match user_agent with
      | none => Except.error
          "Missing user_agent! Make sure to pass it or define USER_AGENT in your environment!"
      | some ua =>
        Except.ok { client := { client_id := cid, client_secret := s, user_agent := ua } }

/-! ### Helper predicates and expected outputs for the comment listings -/

/-- A listing element that is an actual comment (not a continuation). -/
def nodeIsComment : CommentNode → Bool
  | CommentNode.comment _ => true
  | CommentNode.more _ => false

/-- A listing element is one-level resolvable: it is a comment, or a
continuation whose resolved result consists of comments only. -/
def oneLevelOk : CommentNode → Bool
  | CommentNode.comment _ => true
  | CommentNode.more rs => rs.all nodeIsComment

/-- The records produced from a resolved continuation whose elements are
comments (nested continuations contribute nothing). -/
def resolvedRecords (rs : List CommentNode) : List Comment :=
  rs.flatMap fun m => match m with
    | CommentNode.comment c => [Comment._make c]
    | CommentNode.more _ => []

/-- The records expected of a comment listing, in listing order, each
top-level continuation resolved in place. -/
def listingRecords (listing : List CommentNode) : List Comment :=
  listing.flatMap fun n => match n with
    | CommentNode.comment c => [Comment._make c]
    | CommentNode.more rs => resolvedRecords rs

theorem resolveEmit_all_comments (rs : List CommentNode)
    (h : rs.all nodeIsComment = true) :
    resolveEmit rs = (resolvedRecords rs, false) := by
  induction rs with
  | nil => rfl
  | cons hd tl ih =>
    rw [List.all_cons, Bool.and_eq_true] at h
    cases hd with
    | comment c =>
      simp only [resolveEmit, resolvedRecords, List.flatMap_cons, ih h.2]
      simp [resolvedRecords]
    | more rs => simp [nodeIsComment] at h

theorem commentLoop_oneLevel (listing : List CommentNode)
    (h : listing.all oneLevelOk = true) :
    commentLoop listing = (listingRecords listing, false) := by
  induction listing with
  | nil => rfl
  | cons hd tl ih =>
    rw [List.all_cons, Bool.and_eq_true] at h
    cases hd with
    | comment c =>
      simp only [commentLoop, listingRecords, List.flatMap_cons, ih h.2]
      simp [listingRecords]
    | more rs =>
      have hres := resolveEmit_all_comments rs h.1
      simp only [commentLoop, hres, listingRecords, List.flatMap_cons, ih h.2]
      simp [listingRecords]

theorem resolveEmit_nested_more (a : List SourceComment)
    (inner : List CommentNode) (b : List CommentNode) :
    resolveEmit (a.map CommentNode.comment ++ CommentNode.more inner :: b) =
      (a.map Comment._make, true) := by
  induction a with
  | nil => rfl
  | cons hd tl ih => simp [resolveEmit, ih]

/-! ### Concrete stub data for witnesses -/

/-- Stub comment A. -/
def commentA : SourceComment :=
  { body := "first comment"
    author := some { name := "alice" }
    score := 5
    ups := 6
    downs := 1
    created_utc := 1600000000
    all_awardings := [{ name := "Silver", count := 1, coin_price := 100,
                        coin_reward := 0, description := "shiny" }]
    depth := 0
    is_submitter := true
    permalink := "/r/test/comments/1/a" }

/-- Stub comment B (deleted account). -/
def commentB : SourceComment :=
  { body := "second comment"
    author := none
    score := 2
    ups := 2
    downs := 0
    created_utc := 1600000100
    all_awardings := []
    depth := 1
    is_submitter := false
    permalink := "/r/test/comments/1/b" }

/-- Stub comment C. -/
def commentC : SourceComment :=
  { body := "third comment"
    author := some { name := "carol" }
    score := 1
    ups := 1
    downs := 0
    created_utc := 1600000200
    all_awardings := []
    depth := 1
    is_submitter := false
    permalink := "/r/test/comments/1/c" }

/-- The listing of the spec example: `[CommentA, ContinuationX]` where
resolving ContinuationX yields `[CommentB, CommentC]`. -/
def stubListing : List CommentNode :=
  [CommentNode.comment commentA,
   CommentNode.more [CommentNode.comment commentB, CommentNode.comment commentC]]

/-- A listing whose single continuation resolves to a comment followed by a
nested continuation. -/
def nestedListing : List CommentNode :=
  [CommentNode.more ([commentB].map CommentNode.comment ++
     CommentNode.more [CommentNode.comment commentC] :: [])]

/-- A stub post handle whose comment listing is `stubListing`. -/
def stubSourceSubmission : SourceSubmission :=
  { title := "stub post"
    selftext := "hello"
    author := some { name := "op" }
    num_comments := 3
    score := 10
    ups := 11
    downs := 1
    link_flair_text := none
    created_utc := 1599999000
    all_awardings := []
    permalink := "/r/test/comments/1"
    comment_limit := 2048
    comment_sort := "confidence"
    comments_fetch := fun _ _ => stubListing }

/-- The Submission record for `stubSourceSubmission`. -/
def stubSubmission : Submission := Submission._make stubSourceSubmission

/-- A stub post handle whose comment listing is `nestedListing`. -/
def nestedSourceSubmission : SourceSubmission :=
  { stubSourceSubmission with comments_fetch := fun _ _ => nestedListing }

/-- The Submission record for `nestedSourceSubmission`. -/
def nestedSubmission : Submission := Submission._make nestedSourceSubmission

/-- Stub post 1. -/
def post1 : SourceSubmission :=
  { title := "post one"
    selftext := "body one"
    author := some { name := "alice" }
    num_comments := 3
    score := 100
    ups := 110
    downs := 10
    link_flair_text := some "News"
    created_utc := 1600000001
    all_awardings := [{ name := "Gold", count := 2, coin_price := 500,
                        coin_reward := 100, description := "gold award" }]
    permalink := "/r/test/comments/p1"
    comment_limit := 2048
    comment_sort := "confidence"
    comments_fetch := fun _ _ => [] }

/-- Stub post 2 (deleted author, no flair). -/
def post2 : SourceSubmission :=
  { post1 with title := "post two", selftext := "body two", author := none,
               link_flair_text := none, score := 50, permalink := "/r/test/comments/p2" }

/-- Stub post 3. -/
def post3 : SourceSubmission :=
  { post1 with title := "post three", selftext := "body three",
               author := some { name := "bob" }, score := 7,
               permalink := "/r/test/comments/p3" }

/-- A stub subreddit handle returning three posts for hot ordering and
nothing for the others. -/
def stubHandle : SubredditHandle :=
  { hot := fun _ => [post1, post2, post3]
    top := fun _ => []
    controversial := fun _ => []
    new := fun _ => [] }

/-- The Subreddit record over `stubHandle`. -/
def stubSubreddit : Subreddit :=
  { _client := stubHandle
    display_name := "test"
    title := "Test"
    description := "a test subreddit"
    subscriber_count := 42
    created := 1500000000
    url := "https://reddit.com/r/test/" }

/-! ### Claim theorems -/

/-- C1: for every comment listing returned by the collaborator whose
top-level continuations resolve to comments, `get_comments` yields one
Comment record per element in listing order, resolving each top-level
continuation placeholder at the point it is encountered, and the generator
terminates normally. -/
theorem get_comments_yields_listing_order (s : Submission) (limit : Nat)
    (order_by : String)
    (h : (s._client.comments_fetch limit order_by).all oneLevelOk = true) :
    (s.get_comments limit order_by).2 =
      (listingRecords (s._client.comments_fetch limit order_by), false) := by
  have hrun : (s.get_comments limit order_by).2 =
      commentLoop (s._client.comments_fetch limit order_by) := rfl
  rw [hrun, commentLoop_oneLevel _ h]

/-- C1 witness: on the spec example `[CommentA, ContinuationX]` with
`ContinuationX.resolve() = [CommentB, CommentC]`, `get_comments` yields the
mapped records of A, B, C in that order. -/
theorem get_comments_yields_listing_order_witness :
    (stubSubmission._client.comments_fetch 50 "confidence").all oneLevelOk = true ∧
    (stubSubmission.get_comments 50 "confidence").2 =
      ([Comment._make commentA, Comment._make commentB, Comment._make commentC],
        false) :=
  ⟨rfl, get_comments_yields_listing_order stubSubmission 50 "confidence" rfl⟩

/-- C2: for every call to `get_posts` with `order_by = "hot"` and a non-null
`time_filter`, the body raises a ValueError and the collaborator call trace
is empty: no listing method is invoked. -/
theorem get_posts_hot_time_filter_rejected (self : Subreddit)
    (limit : Option Nat) (t : String) :
    self.get_posts limit (some t) "hot" =
      ([], Except.error
        (s!"If order_by is \"hot\", time filter must be None. Received {t}.")) := rfl

/-- C3: for every call to `get_posts` with `order_by` outside
{hot, top, controversial, new}, the body raises a ValueError and the
collaborator call trace is empty: no listing method is invoked. -/
theorem get_posts_invalid_order_rejected (self : Subreddit)
    (limit : Option Nat) (tf : Option String) (order_by : String)
    (h : order_by ∉ ["hot", "top", "controversial", "new"]) :
    self.get_posts limit tf order_by =
      ([], Except.error
        (s!"Expected one of [\"hot\", \"top\", \"controversial\", \"new\"] for order_by, received {order_by}")) := by
  simp only [List.mem_cons, List.not_mem_nil, or_false, not_or] at h
  obtain ⟨h1, h2, h3, h4⟩ := h
  simp [Subreddit.get_posts, h1, h2, h3, h4]

/-- C3 witness: `order_by = "best"` is rejected with no collaborator call. -/
theorem get_posts_invalid_order_rejected_witness :
    "best" ∉ ["hot", "top", "controversial", "new"] ∧
    stubSubreddit.get_posts (some 5) none "best" =
      ([], Except.error
        "Expected one of [\"hot\", \"top\", \"controversial\", \"new\"] for order_by, received best") :=
  ⟨by decide,
    get_posts_invalid_order_rejected stubSubreddit (some 5) none "best" (by decide)⟩

/-- C4: a valid `get_posts` call yields exactly one Submission record per
post the collaborator listing method returns, in the same order (the mapped
list is `List.map Submission._make` of the collaborator listing), each field
given by the source-to-record mapping; in particular the three-post stub
yields exactly the three mapped records. -/
theorem get_posts_maps_in_order (self : Subreddit) (limit : Option Nat)
    (p : SourceSubmission) :
    (self.get_posts limit none "hot" =
      ([ListingCall.hot (buildKwargs limit none)],
        Except.ok ((self._client.hot (buildKwargs limit none)).map Submission._make))) ∧
    (Submission._make p)._client = p ∧
    (Submission._make p).summary = p.title ∧
    (Submission._make p).text = emptyJoin p.selftext ∧
    (Submission._make p).author_name = p.author.map Redditor.name ∧
    (Submission._make p).comment_count = p.num_comments ∧
    (Submission._make p).score = p.score ∧
    (Submission._make p).up_votes = p.ups ∧
    (Submission._make p).down_votes = p.downs ∧
    (Submission._make p).flair = p.link_flair_text ∧
    (Submission._make p).created = p.created_utc ∧
    (Submission._make p).awards = p.all_awardings.map Award._make ∧
    (Submission._make p).url = p.permalink ∧
    (stubSubreddit.get_posts (some 3) none "hot").2 =
      Except.ok [Submission._make post1, Submission._make post2, Submission._make post3] := by
  refine ⟨rfl, rfl, rfl, rfl, ?_, rfl, rfl, rfl, rfl, rfl, rfl, rfl, rfl, rfl⟩
  cases hp : p.author <;> simp [Submission._make, hp]

/-- C5: with all three credential arguments absent and the three environment
variables unset, construction fails naming `client_id`; in general the error
names the first credential unresolved in the fixed order client_id, secret,
user_agent. -/
theorem rawr_init_missing_credential (env : Env) (ci s ua : Option String) :
    (Rawr.init {} none none none = Except.error
      "Missing client_id! Make sure to pass it or define CLIENT_ID in your environment!") ∧
    (envFallback ci env.CLIENT_ID = none →
      Rawr.init env ci s ua = Except.error
        "Missing client_id! Make sure to pass it or define CLIENT_ID in your environment!") ∧
    (envFallback ci env.CLIENT_ID ≠ none →
      envFallback s env.SECRET = none →
      Rawr.init env ci s ua = Except.error
        "Missing secret! Make sure to pass it or define SECRET in your environment!") ∧
    (envFallback ci env.CLIENT_ID ≠ none →
      envFallback s env.SECRET ≠ none →
      envFallback ua env.USER_AGENT = none →
      Rawr.init env ci s ua = Except.error
        "Missing user_agent! Make sure to pass it or define USER_AGENT in your environment!") := by
  refine ⟨rfl, ?_, ?_, ?_⟩
  · intro h1
    simp [Rawr.init, h1]
  · intro h1 h2
    cases hc : envFallback ci env.CLIENT_ID with
    | none => exact absurd hc h1
    | some v => simp [Rawr.init, hc, h2]
  · intro h1 h2 h3
    cases hc : envFallback ci env.CLIENT_ID with
    | none => exact absurd hc h1
    | some v =>
      cases hs : envFallback s env.SECRET with
      | none => exact absurd hs h2
      | some w => simp [Rawr.init, hc, hs, h3]

/-- C5 witness: with only client_id and user_agent supplied and an empty
environment, construction fails naming `secret`. -/
theorem rawr_init_missing_credential_witness :
    Rawr.init {} (some "x") none (some "z") = Except.error
      "Missing secret! Make sure to pass it or define SECRET in your environment!" :=
  (rawr_init_missing_credential {} (some "x") none (some "z")).2.2.1
    (by decide) (by decide)

/-- C6: with all three credential arguments supplied, construction succeeds
with exactly those credentials, without raising and independently of the
environment variables: any two environments give identical results. -/
theorem rawr_init_explicit_ignores_env (env env2 : Env) (x y z : String) :
    Rawr.init env (some x) (some y) (some z) =
      Except.ok { client := { client_id := x, client_secret := y, user_agent := z } } ∧
    Rawr.init env (some x) (some y) (some z) =
      Rawr.init env2 (some x) (some y) (some z) :=
  ⟨rfl, rfl⟩

/-- C7: for every source comment and source submission, the record's
author_name is None exactly when the source author is None, and otherwise
equals the source author's name. -/
theorem author_name_mapping (c : SourceComment) (p : SourceSubmission) :
    ((Comment._make c).author_name = none ↔ c.author = none) ∧
    (Comment._make c).author_name = c.author.map Redditor.name ∧
    ((Submission._make p).author_name = none ↔ p.author = none) ∧
    (Submission._make p).author_name = p.author.map Redditor.name := by
  cases hc : c.author <;> cases hp : p.author <;>
    simp [Comment._make, Submission._make, hc, hp]

/-- C8: the parameter bag passed to the collaborator ordering method holds
the limit key exactly when `limit` is set and the time_filter key exactly
when `time_filter` is set, and each valid dispatch passes exactly that bag
in a single call. -/
theorem get_posts_kwargs_passthrough (self : Subreddit) (limit : Option Nat)
    (tf : Option String) :
    (buildKwargs limit tf).limit = limit ∧
    (buildKwargs limit tf).time_filter = tf ∧
    (self.get_posts limit none "hot").1 = [ListingCall.hot (buildKwargs limit none)] ∧
    (self.get_posts limit tf "top").1 = [ListingCall.top (buildKwargs limit tf)] ∧
    (self.get_posts limit tf "controversial").1 =
      [ListingCall.controversial (buildKwargs limit tf)] ∧
    (self.get_posts limit tf "new").1 = [ListingCall.new (buildKwargs limit tf)] := by
  refine ⟨?_, ?_, rfl, rfl, rfl, rfl⟩
  · cases limit <;> cases tf <;> rfl
  · cases limit <;> cases tf <;> rfl

/-- C9: a continuation placeholder nested inside a resolved continuation is
never itself resolved: the comments before it are mapped directly through
the comment factory and emitted, nothing of the nested placeholder's content
appears (the factory application to the placeholder raises), whatever that
content is. -/
theorem nested_continuation_unresolved (s : Submission) (limit : Nat)
    (order_by : String) (a : List SourceComment) (inner : List CommentNode)
    (b : List CommentNode)
    (h : s._client.comments_fetch limit order_by =
      [CommentNode.more (a.map CommentNode.comment ++ CommentNode.more inner :: b)]) :
    (s.get_comments limit order_by).2 = (a.map Comment._make, true) := by
  have hrun : (s.get_comments limit order_by).2 =
      commentLoop (s._client.comments_fetch limit order_by) := rfl
  rw [hrun, h]
  simp [commentLoop, resolveEmit_nested_more a inner b]

/-- C9 witness: a listing whose continuation resolves to comment B followed
by a nested continuation holding comment C emits only the record of B;
nothing of C appears. -/
theorem nested_continuation_unresolved_witness :
    nestedSubmission._client.comments_fetch 50 "top" =
      [CommentNode.more ([commentB].map CommentNode.comment ++
        CommentNode.more [CommentNode.comment commentC] :: [])] ∧
    (nestedSubmission.get_comments 50 "top").2 = ([Comment._make commentB], true) :=
  ⟨rfl, nested_continuation_unresolved nestedSubmission 50 "top" [commentB]
    [CommentNode.comment commentC] [] rfl⟩

/-- C10: calling `get_posts` or `get_comments` with any arguments returns a
generator object having made no collaborator call and no handle write;
running the generator performs exactly the body (its validation errors, the
handle writes of comment_limit and comment_sort, and the collaborator
calls). -/
theorem generator_calls_are_lazy (self : Subreddit) (limit : Option Nat)
    (tf : Option String) (ob : String) (s : Submission) (cl : Nat) (co : String) :
    self.get_posts_call limit tf ob =
      ([], { self := self, limit := limit, time_filter := tf, order_by := ob }) ∧
    (PostsGenerator.mk self limit tf ob).run = self.get_posts limit tf ob ∧
    s.get_comments_call cl co = { self := s, limit := cl, order_by := co } ∧
    (CommentsGenerator.mk s cl co).run = s.get_comments cl co ∧
    (s.get_comments cl co).1.comment_limit = cl ∧
    (s.get_comments cl co).1.comment_sort = co :=
  ⟨rfl, rfl, rfl, rfl, rfl, rfl⟩
